import Mathlib

/-
  Verification of the authenticated-session and token-refresh layer of the
  projecto frontend.

  The embedded code lives in:
  - src/Interceptors/axiosInstance.js  (request interceptor, response
    interceptor with single-flight refresh, processQueue)
  - src/Registration/Axios.jsx         (secondary axios instance with timeout)
  - src/Registration/Signin.jsx        (authenticateData success path)
  - src/Dashboard/Logout.jsx           (handleLogOut storage effect)
  - home.jsx                           (bootstrap authentication check)

  JavaScript on the browser main thread is single-threaded: an async function
  runs without interruption until its first `await`.  The response-interceptor
  error handler in axiosInstance.js contains no `await` between the check of
  `isRefreshing` and the assignments `originalRequest._retry = true;
  isRefreshing = true;`, so each arrival of a response error is one atomic
  step, and the settlement of the refresh exchange (the resumption after the
  single `await`) is another.  The model below is a step machine whose events
  are exactly these atomic segments.
-/

namespace Projecto

/-- Infix test on character lists, used to model JavaScript
`String.prototype.includes`. -/
def charsInfix (pat : List Char) : List Char → Bool
  | [] => pat.isEmpty
  | c :: t => pat.isPrefixOf (c :: t) || charsInfix pat t

/-- Model of JavaScript `s.includes(pat)`. -/
def jsIncludes (s pat : String) : Bool :=
  charsInfix pat.toList s.toList

/-- The durable client-side key-value storage (`localStorage`), restricted to
the three keys the credential layer uses: `access_token`, `refresh_token`,
`islogged`.  `none` models an absent key. -/
structure Storage where
  access_token : Option String
  refresh_token : Option String
  islogged : Option String
deriving DecidableEq, Repr

/-- The part of an axios request config the credential layer reads or writes:
the request `url`, the `Authorization` header, and the custom `_retry` marker
(absent in JavaScript is falsy, so it is a `Bool` that starts `false`). -/
structure RequestConfig where
  url : String
  authHeader : Option String
  retryFlag : Bool
deriving DecidableEq, Repr

/-- The error values a caller's promise can be rejected with:
`respErr config status` is the axios response error of the request `config`
(`error.response?.status = status`); `refreshExchErr tag` is the error thrown
by the `await axios.post(token/refresh/)` exchange itself. -/
inductive JsError where
  | respErr (config : RequestConfig) (status : Option Nat)
  | refreshExchErr (tag : Nat)
deriving DecidableEq, Repr

/-- `originalRequest.headers["Authorization"] = "Bearer " + token` from
axiosInstance.js. -/
def setBearer (req : RequestConfig) (token : String) : RequestConfig :=
  { req with authHeader := some ("Bearer " ++ token) }

/-- The process-wide state of the gateway module plus the observable effects
it has produced:
- `isRefreshing`, `failedQueue`: the module-level mutable variables;
- `storage`: the durable credential storage;
- `refreshPosts`: one entry per `POST token/refresh/` issued, recording the
  `refresh` body field read from storage at that moment;
- `reissued`: requests re-entered into `axiosInstance(originalRequest)` after
  a refresh, with the headers they carry;
- `rejectedList`: promise rejections delivered to callers, with the error;
- `navTarget`: last forced `window.location.href` assignment;
- `pendingRefresh`: the initiating request (with its mutated `_retry`) and
  the status of its original error, while a refresh exchange is in flight. -/
structure GatewayState where
  isRefreshing : Bool
  failedQueue : List RequestConfig
  storage : Storage
  refreshPosts : List (Option String)
  reissued : List RequestConfig
  rejectedList : List (RequestConfig × JsError)
  navTarget : Option String
  pendingRefresh : Option (RequestConfig × Option Nat)
deriving DecidableEq, Repr

/-- Atomic events of the single-threaded execution:
- `fail req status`: the response-interceptor error handler runs for a failed
  request (synchronous segment up to its first suspension);
- `refreshOk access refresh`: the in-flight refresh exchange settles
  successfully and the initiator resumes at line 69 of axiosInstance.js;
- `refreshFail tag`: the exchange throws and the initiator resumes in the
  `catch` block. -/
inductive Event where
  | fail (req : RequestConfig) (status : Option Nat)
  | refreshOk (access refresh : String)
  | refreshFail (tag : Nat)
deriving DecidableEq, Repr

/-- One atomic step of the response interceptor, transcribed from
axiosInstance.js lines 38-90.  On `fail`: the `token/` URL guard (line 44),
then the `status === 401 && !originalRequest._retry` test (line 48); while
`isRefreshing` the waiter is pushed onto `failedQueue` (lines 49-58);
otherwise `_retry` and `isRefreshing` are set and the refresh POST is issued
with the stored refresh token as body (lines 60-67).  On `refreshOk`: both
new credentials are stored, `processQueue(null, access)` resolves every
waiter (whose continuation sets the bearer header and reissues, lines 53-56),
the initiator reissues with the new header, and `finally` clears the flag
(lines 69-85).  On `refreshFail`: `processQueue(err, null)` rejects every
waiter with the exchange error, both credentials are removed, navigation is
forced to "/", `finally` clears the flag, and the initiator falls through to
`return Promise.reject(error)` with its own original error (lines 78-88). -/
def step (s : GatewayState) : Event → GatewayState
  | .fail req status =>
    if jsIncludes req.url "token/" then
      { s with rejectedList := s.rejectedList ++ [(req, .respErr req status)] }
    else if status = some 401 ∧ req.retryFlag = false then
      if s.isRefreshing then
        { s with failedQueue := s.failedQueue ++ [req] }
      else
        { s with
            pendingRefresh := some ({ req with retryFlag := true }, status),
            isRefreshing := true,
            refreshPosts := s.refreshPosts ++ [s.storage.refresh_token] }
    else
      { s with rejectedList := s.rejectedList ++ [(req, .respErr req status)] }
  | .refreshOk a r =>
    match s.pendingRefresh with
    | none => s
    | some (orig, _) =>
      { s with
          storage := { s.storage with
                         access_token := some a, refresh_token := some r },
          reissued := s.reissued ++ [setBearer orig a]
                        ++ s.failedQueue.map (fun w => setBearer w a),
          failedQueue := [],
          isRefreshing := false,
          pendingRefresh := none }
  | .refreshFail tag =>
    match s.pendingRefresh with
    | none => s
    | some (orig, st) =>
      { s with
          rejectedList := s.rejectedList
            ++ s.failedQueue.map (fun w => (w, JsError.refreshExchErr tag))
            ++ [(orig, .respErr orig st)],
          failedQueue := [],
          storage := { s.storage with
                         access_token := none, refresh_token := none },
          navTarget := some "/",
          isRefreshing := false,
          pendingRefresh := none }

/-- Run a sequence of atomic events. -/
def run (s : GatewayState) (evs : List Event) : GatewayState :=
  evs.foldl step s

/-- The request interceptor, axiosInstance.js lines 14-23: read
`access_token` from storage; if present, set the bearer header; otherwise
return the config unchanged (the function is total: no error is raised). -/
def requestUse (st : Storage) (config : RequestConfig) : RequestConfig :=
  match st.access_token with
  | some token => { config with authHeader := some ("Bearer " ++ token) }
  | none => config

/-- The fields of an `axios.create` configuration object relevant here.
`baseURL` is the key axios recognizes; `baseurl` is the distinct,
unrecognized lowercase key actually written in src/Registration/Axios.jsx;
`timeoutMs` is the `timeout` key in milliseconds, `none` when the object has
no such key. -/
structure AxiosCreateConfig where
  baseURL : Option String
  baseurl : Option String
  timeoutMs : Option Nat
deriving DecidableEq, Repr

/-- The config passed to `axios.create` in src/Interceptors/axiosInstance.js
lines 3-9: a `baseURL` and headers, and no `timeout` key.  `apiBase` stands
for the environment value `VITE_API_BASE_URL`. -/
def axiosInstanceCreateConfig (apiBase : String) : AxiosCreateConfig :=
  { baseURL := some (apiBase ++ "/api/"), baseurl := none, timeoutMs := none }

/-- The config passed to `axios.create` in src/Registration/Axios.jsx lines
6-13: a misspelled `baseurl` key and `timeout: 5000`. -/
def registrationAxiosCreateConfig (apiBase : String) : AxiosCreateConfig :=
  { baseURL := none, baseurl := some (apiBase ++ "/api"),
    timeoutMs := some 5000 }

/-- Axios semantics: a missing `timeout` key defaults to `0`, and a timeout
of `0` means no upper bound is applied to the request. -/
def effectiveTimeoutMs (c : AxiosCreateConfig) : Nat :=
  c.timeoutMs.getD 0

/-- Whether an instance built from this config enforces any time bound. -/
def hasTimeBound (c : AxiosCreateConfig) : Bool :=
  effectiveTimeoutMs c != 0

/-- The storage effect of the success branch of `authenticateData` in
src/Registration/Signin.jsx lines 77-79: `access_token`, `refresh_token` and
`islogged` are all written. -/
def authenticateDataStore (a r : String) (s : Storage) : Storage :=
  { s with access_token := some a, refresh_token := some r,
           islogged := some "true" }

/-- The storage effect of `handleLogOut` in src/Dashboard/Logout.jsx.  All
three branches (no stored refresh token, logout API success, logout API
failure) perform the same writes: remove `access_token`, remove
`refresh_token`, set `islogged` to "false" (lines 33, 37-39, 50-52, 60-62). -/
def handleLogOutStore (s : Storage) : Storage :=
  { s with access_token := none, refresh_token := none,
           islogged := some "false" }

/-- The effect of the `catch` branch of the bootstrap authentication check in
home.jsx (the `useEffect` that issues `GET accounts/home/`): on failure it
runs `localStorage.setItem("islogged", false)` — the boolean is coerced to
the string "false" — and `navigate("/")`.  It returns the updated storage and
the navigation target.  No storage key other than `islogged` is written. -/
def homeAuthCheckFailure (s : Storage) : Storage × String :=
  ({ s with islogged := some "false" }, "/")

/-- A gateway state with the module-level variables at their initial values
(axiosInstance.js lines 27-28) and no effects recorded yet. -/
def initState (st : Storage) : GatewayState :=
  { isRefreshing := false, failedQueue := [], storage := st,
    refreshPosts := [], reissued := [], rejectedList := [],
    navTarget := none, pendingRefresh := none }

/-- A storage holding a first credential pair and a logged-in flag. -/
def st0 : Storage :=
  { access_token := some "A1", refresh_token := some "R1",
    islogged := some "true" }

/-- A concrete authenticated API request. -/
def req1 : RequestConfig :=
  { url := "accounts/home/", authHeader := some "Bearer A1",
    retryFlag := false }

/-- A second concrete authenticated API request. -/
def req2 : RequestConfig :=
  { url := "teams/list/", authHeader := some "Bearer A1",
    retryFlag := false }

/-- A third concrete authenticated API request. -/
def req3 : RequestConfig :=
  { url := "accounts/requests/", authHeader := some "Bearer A1",
    retryFlag := false }

/-- A concrete request to the credential-issuing (sign-in) endpoint. -/
def signinReq : RequestConfig :=
  { url := "token/", authHeader := none, retryFlag := false }

/-- A storage with no keys set. -/
def stEmpty : Storage :=
  { access_token := none, refresh_token := none, islogged := none }

/-- Three concurrent requests each failing with 401, from an idle gateway. -/
def trace3 : List Event :=
  [Event.fail req1 (some 401), Event.fail req2 (some 401),
   Event.fail req3 (some 401)]

/-- The gateway state reached after the three concurrent 401 failures. -/
def s3 : GatewayState :=
  run (initState st0) trace3

/-- The credential-pair invariant on durable storage: an access credential is
present exactly when a refresh credential is. -/
def pairedCredentials (s : Storage) : Prop :=
  s.access_token.isSome = s.refresh_token.isSome

end Projecto


namespace Projecto

/-- Unfolding `run` over a cons of events. -/
theorem run_cons (s : GatewayState) (e : Event) (evs : List Event) :
    run s (e :: evs) = run (step s e) evs :=
  rfl

/-- A 401 arriving for a non-`token/`, not-yet-retried request while the
refresh flag is set is appended to the waiter queue and changes nothing
else. -/
theorem stepFail_enqueue (s : GatewayState) (req : RequestConfig)
    (hflag : s.isRefreshing = true)
    (hurl : jsIncludes req.url "token/" = false)
    (hretry : req.retryFlag = false) :
    step s (Event.fail req (some 401))
      = { s with failedQueue := s.failedQueue ++ [req] } := by
  simp [step, hflag, hurl, hretry]

/-- A 401 arriving for a non-`token/`, not-yet-retried request while the
refresh flag is clear starts the refresh: the flag is set, the initiating
request is recorded with its `_retry` marker set, and one POST to
`token/refresh/` is issued with the stored refresh credential as body. -/
theorem stepFail_startRefresh (s : GatewayState) (req : RequestConfig)
    (hflag : s.isRefreshing = false)
    (hurl : jsIncludes req.url "token/" = false)
    (hretry : req.retryFlag = false) :
    step s (Event.fail req (some 401))
      = { s with
            pendingRefresh := some ({ req with retryFlag := true }, some 401),
            isRefreshing := true,
            refreshPosts := s.refreshPosts ++ [s.storage.refresh_token] } := by
  simp [step, hflag, hurl, hretry]

/-- Processing any number of qualifying 401 failures while a refresh is in
flight leaves the flag set and the POST log untouched, and appends all of
them to the waiter queue. -/
theorem run_enqueue_all (reqs : List RequestConfig) :
    ∀ s : GatewayState, s.isRefreshing = true →
    (∀ w ∈ reqs, jsIncludes w.url "token/" = false ∧ w.retryFlag = false) →
    (run s (reqs.map (fun q => Event.fail q (some 401)))).isRefreshing = true ∧
    (run s (reqs.map (fun q => Event.fail q (some 401)))).refreshPosts
      = s.refreshPosts ∧
    (run s (reqs.map (fun q => Event.fail q (some 401)))).failedQueue
      = s.failedQueue ++ reqs := by
  induction reqs with
  | nil =>
    intro s h _
    exact ⟨h, rfl, by simp [run]⟩
  | cons w rest ih =>
    intro s h hq
    have hw := hq w (List.mem_cons_self w rest)
    have hstep : step s (Event.fail w (some 401))
        = { s with failedQueue := s.failedQueue ++ [w] } :=
      stepFail_enqueue s w h hw.1 hw.2
    have hrun : run s ((w :: rest).map (fun q => Event.fail q (some 401)))
        = run ({ s with failedQueue := s.failedQueue ++ [w] })
            (rest.map (fun q => Event.fail q (some 401))) := by
      rw [List.map_cons, run_cons, hstep]
    rw [hrun]
    obtain ⟨h1, h2, h3⟩ := ih { s with failedQueue := s.failedQueue ++ [w] } h
      (fun x hx => hq x (List.mem_cons_of_mem _ hx))
    exact ⟨h1, h2, by rw [h3]; simp⟩

end Projecto

namespace Projecto

/-- Claim C1: for every set of requests failing with 401 while no refresh is
in flight, exactly one POST to `token/refresh/` is issued regardless of how
many requests there are.  The first 401 arrival sets the `isRefreshing` flag
in its own atomic (synchronous, pre-await) step, and every later 401
arriving while the flag is set is appended to the waiter queue instead of
issuing a second exchange. -/
theorem singleFlight (s : GatewayState) (r : RequestConfig)
    (rest : List RequestConfig)
    (hflag : s.isRefreshing = false)
    (hurl : jsIncludes r.url "token/" = false)
    (hretry : r.retryFlag = false)
    (hrest : ∀ w ∈ rest,
      jsIncludes w.url "token/" = false ∧ w.retryFlag = false) :
    (step s (Event.fail r (some 401))).isRefreshing = true ∧
    (run s ((r :: rest).map (fun q => Event.fail q (some 401)))).refreshPosts
      = s.refreshPosts ++ [s.storage.refresh_token] ∧
    (run s ((r :: rest).map (fun q => Event.fail q (some 401)))).failedQueue
      = s.failedQueue ++ rest := by
  have hstep : step s (Event.fail r (some 401))
      = { s with
            pendingRefresh := some ({ r with retryFlag := true }, some 401),
            isRefreshing := true,
            refreshPosts := s.refreshPosts ++ [s.storage.refresh_token] } :=
    stepFail_startRefresh s r hflag hurl hretry
  have hrun : run s ((r :: rest).map (fun q => Event.fail q (some 401)))
      = run ({ s with
                 pendingRefresh :=
                   some ({ r with retryFlag := true }, some 401),
                 isRefreshing := true,
                 refreshPosts :=
                   s.refreshPosts ++ [s.storage.refresh_token] })
          (rest.map (fun q => Event.fail q (some 401))) := by
    rw [List.map_cons, run_cons, hstep]
  obtain ⟨h1, h2, h3⟩ := run_enqueue_all rest
    { s with
        pendingRefresh := some ({ r with retryFlag := true }, some 401),
        isRefreshing := true,
        refreshPosts := s.refreshPosts ++ [s.storage.refresh_token] }
    rfl hrest
  refine ⟨by rw [hstep], ?_, ?_⟩
  · rw [hrun, h2]
  · rw [hrun, h3]

/-- Witness for C1: three concrete concurrent 401 failures from the idle
initial state issue exactly one refresh POST and queue the two later
arrivals. -/
theorem singleFlightWitness :
    (initState st0).isRefreshing = false ∧
    ((step (initState st0) (Event.fail req1 (some 401))).isRefreshing = true ∧
     (run (initState st0)
        ((req1 :: [req2, req3]).map
          (fun q => Event.fail q (some 401)))).refreshPosts
       = (initState st0).refreshPosts
           ++ [(initState st0).storage.refresh_token] ∧
     (run (initState st0)
        ((req1 :: [req2, req3]).map
          (fun q => Event.fail q (some 401)))).failedQueue
       = (initState st0).failedQueue ++ [req2, req3]) :=
  ⟨rfl, singleFlight (initState st0) req1 [req2, req3] rfl (by decide) rfl
    (by decide)⟩

end Projecto

namespace Projecto

/-- Counterexample to claim C2 as stated: a queued waiter released by a
successful refresh is replayed WITHOUT its `_retry` marker set (only the
initiating request gets `originalRequest._retry = true`), so when the
replayed waiter fails 401 a second time it re-enters the refresh path and a
second POST to `token/refresh/` is issued. -/
theorem waiterReplaySecondRefreshCounterexample :
    setBearer req2 "A2" ∈ (run (initState st0)
      [Event.fail req1 (some 401), Event.fail req2 (some 401),
       Event.refreshOk "A2" "R2"]).reissued ∧
    (setBearer req2 "A2").retryFlag = false ∧
    (run (initState st0)
      [Event.fail req1 (some 401), Event.fail req2 (some 401),
       Event.refreshOk "A2" "R2",
       Event.fail (setBearer req2 "A2") (some 401)]).refreshPosts.length
      = 2 := by
  decide

/-- Claim C2, amended: the no-second-refresh guarantee holds exactly for
requests that carry the `_retry` marker — i.e. the refresh-initiating
request, the only one the code marks.  Any 401 (indeed any failure) of a
marked request changes none of the refresh state and is surfaced to the
caller as a normal rejection with its own error.  (Queued waiters are
replayed unmarked and are NOT covered, per the counterexample.) -/
theorem retriedRequestNeverRefreshes (s : GatewayState)
    (req : RequestConfig) (status : Option Nat)
    (h : req.retryFlag = true) :
    (step s (Event.fail req status)).refreshPosts = s.refreshPosts ∧
    (step s (Event.fail req status)).isRefreshing = s.isRefreshing ∧
    (step s (Event.fail req status)).failedQueue = s.failedQueue ∧
    (step s (Event.fail req status)).pendingRefresh = s.pendingRefresh ∧
    (step s (Event.fail req status)).rejectedList
      = s.rejectedList ++ [(req, JsError.respErr req status)] := by
  cases hurl : jsIncludes req.url "token/" with
  | true => simp [step, hurl]
  | false => simp [step, hurl, h]

/-- Witness for the amended C2: the marked initiating request of the first
refresh, failing 401 again from the post-refresh idle state, triggers no
state change and is rejected to its caller. -/
theorem retriedRequestNeverRefreshesWitness :
    ({ req1 with retryFlag := true } : RequestConfig).retryFlag = true ∧
    ((step (initState st0)
        (Event.fail { req1 with retryFlag := true }
          (some 401))).refreshPosts = (initState st0).refreshPosts ∧
     (step (initState st0)
        (Event.fail { req1 with retryFlag := true }
          (some 401))).isRefreshing = (initState st0).isRefreshing ∧
     (step (initState st0)
        (Event.fail { req1 with retryFlag := true }
          (some 401))).failedQueue = (initState st0).failedQueue ∧
     (step (initState st0)
        (Event.fail { req1 with retryFlag := true }
          (some 401))).pendingRefresh = (initState st0).pendingRefresh ∧
     (step (initState st0)
        (Event.fail { req1 with retryFlag := true }
          (some 401))).rejectedList
       = (initState st0).rejectedList
           ++ [({ req1 with retryFlag := true },
                JsError.respErr { req1 with retryFlag := true }
                  (some 401))]) :=
  ⟨rfl, retriedRequestNeverRefreshes (initState st0)
    { req1 with retryFlag := true } (some 401) rfl⟩

/-- Claim C5: any response error of a request whose URL contains "token/" is
rejected back to the caller unchanged; no part of the refresh machinery is
touched (the resulting state differs only by the recorded rejection).  In
particular a 401 from the sign-in endpoint never issues a refresh
exchange. -/
theorem tokenEndpointExclusion (s : GatewayState) (req : RequestConfig)
    (status : Option Nat)
    (h : jsIncludes req.url "token/" = true) :
    step s (Event.fail req status)
      = { s with rejectedList :=
            s.rejectedList ++ [(req, JsError.respErr req status)] } := by
  simp [step, h]

/-- Witness for C5: a 401 from the sign-in endpoint `token/` is rejected
unchanged from the idle initial state. -/
theorem tokenEndpointExclusionWitness :
    jsIncludes signinReq.url "token/" = true ∧
    step (initState st0) (Event.fail signinReq (some 401))
      = { initState st0 with rejectedList :=
            (initState st0).rejectedList
              ++ [(signinReq, JsError.respErr signinReq (some 401))] } :=
  ⟨by decide, tokenEndpointExclusion (initState st0) signinReq (some 401)
    (by decide)⟩

end Projecto

namespace Projecto

/-- Claim C3: when the refresh exchange succeeds with a new credential pair,
both new credentials are stored, every queued waiter is reissued with the
new bearer header (its resolve continuation sets `Bearer <access>` and
re-enters the gateway), the queue is cleared, the in-flight flag is reset,
and the initiating request is also reissued with the new bearer header. -/
theorem refreshSuccessReleasesAll (s : GatewayState)
    (orig : RequestConfig) (st : Option Nat) (a r : String)
    (h : s.pendingRefresh = some (orig, st)) :
    (step s (Event.refreshOk a r)).storage.access_token = some a ∧
    (step s (Event.refreshOk a r)).storage.refresh_token = some r ∧
    (step s (Event.refreshOk a r)).reissued
      = s.reissued ++ [setBearer orig a]
          ++ s.failedQueue.map (fun w => setBearer w a) ∧
    (∀ w ∈ s.failedQueue,
      setBearer w a ∈ (step s (Event.refreshOk a r)).reissued) ∧
    (∀ w : RequestConfig,
      (setBearer w a).authHeader = some ("Bearer " ++ a)) ∧
    (step s (Event.refreshOk a r)).failedQueue = [] ∧
    (step s (Event.refreshOk a r)).isRefreshing = false ∧
    setBearer orig a ∈ (step s (Event.refreshOk a r)).reissued := by
  refine ⟨by simp [step, h], by simp [step, h], by simp [step, h], ?_,
    fun w => rfl, by simp [step, h], by simp [step, h], ?_⟩
  · intro w hw
    simp only [step, h, List.mem_append]
    exact Or.inr (List.mem_map_of_mem _ hw)
  · simp only [step, h, List.mem_append]
    exact Or.inl (Or.inr (List.mem_singleton.mpr rfl))

/-- Witness for C3: after three concurrent 401 failures, the exchange
succeeding with the pair A2/R2 stores both credentials, reissues the
initiator and both waiters with header "Bearer A2", clears the queue and
resets the flag. -/
theorem refreshSuccessReleasesAllWitness :
    s3.pendingRefresh = some ({ req1 with retryFlag := true }, some 401) ∧
    ((step s3 (Event.refreshOk "A2" "R2")).storage.access_token
       = some "A2" ∧
     (step s3 (Event.refreshOk "A2" "R2")).storage.refresh_token
       = some "R2" ∧
     (step s3 (Event.refreshOk "A2" "R2")).reissued
       = s3.reissued ++ [setBearer { req1 with retryFlag := true } "A2"]
           ++ s3.failedQueue.map (fun w => setBearer w "A2") ∧
     (∀ w ∈ s3.failedQueue,
       setBearer w "A2" ∈ (step s3 (Event.refreshOk "A2" "R2")).reissued) ∧
     (∀ w : RequestConfig,
       (setBearer w "A2").authHeader = some ("Bearer " ++ "A2")) ∧
     (step s3 (Event.refreshOk "A2" "R2")).failedQueue = [] ∧
     (step s3 (Event.refreshOk "A2" "R2")).isRefreshing = false ∧
     setBearer { req1 with retryFlag := true } "A2"
       ∈ (step s3 (Event.refreshOk "A2" "R2")).reissued) :=
  ⟨by decide, refreshSuccessReleasesAll s3 { req1 with retryFlag := true }
    (some 401) "A2" "R2" (by decide)⟩

/-- Claim C4: when the refresh exchange fails, every queued waiter is
rejected (none is reissued: the reissue log is unchanged), both credentials
are deleted from durable storage, navigation is forced to "/", the queue is
cleared, and the in-flight flag is reset. -/
theorem refreshFailureTeardown (s : GatewayState)
    (orig : RequestConfig) (st : Option Nat) (tag : Nat)
    (h : s.pendingRefresh = some (orig, st)) :
    (step s (Event.refreshFail tag)).storage.access_token = none ∧
    (step s (Event.refreshFail tag)).storage.refresh_token = none ∧
    (step s (Event.refreshFail tag)).navTarget = some "/" ∧
    (step s (Event.refreshFail tag)).isRefreshing = false ∧
    (step s (Event.refreshFail tag)).failedQueue = [] ∧
    (∀ w ∈ s.failedQueue,
      (w, JsError.refreshExchErr tag)
        ∈ (step s (Event.refreshFail tag)).rejectedList) ∧
    (step s (Event.refreshFail tag)).reissued = s.reissued := by
  refine ⟨by simp [step, h], by simp [step, h], by simp [step, h],
    by simp [step, h], by simp [step, h], ?_, by simp [step, h]⟩
  intro w hw
  simp only [step, h, List.mem_append]
  exact Or.inl (Or.inr (List.mem_map_of_mem _ hw))

/-- Witness for C4: after three concurrent 401 failures, a failing exchange
deletes both credentials, navigates to "/", clears the queue and flag, and
rejects the two waiters without reissuing them. -/
theorem refreshFailureTeardownWitness :
    s3.pendingRefresh = some ({ req1 with retryFlag := true }, some 401) ∧
    ((step s3 (Event.refreshFail 7)).storage.access_token = none ∧
     (step s3 (Event.refreshFail 7)).storage.refresh_token = none ∧
     (step s3 (Event.refreshFail 7)).navTarget = some "/" ∧
     (step s3 (Event.refreshFail 7)).isRefreshing = false ∧
     (step s3 (Event.refreshFail 7)).failedQueue = [] ∧
     (∀ w ∈ s3.failedQueue,
       (w, JsError.refreshExchErr 7)
         ∈ (step s3 (Event.refreshFail 7)).rejectedList) ∧
     (step s3 (Event.refreshFail 7)).reissued = s3.reissued) :=
  ⟨by decide, refreshFailureTeardown s3 { req1 with retryFlag := true }
    (some 401) 7 (by decide)⟩

/-- Claim C9: on refresh failure the initiating request's promise is
rejected with its own original response error (the catch block falls through
to `return Promise.reject(error)`), while every queued waiter is rejected
with the refresh exchange's error object; the two error values are always
distinct. -/
theorem refreshFailureErrorValues (s : GatewayState)
    (orig : RequestConfig) (st : Option Nat) (tag : Nat)
    (h : s.pendingRefresh = some (orig, st)) :
    (step s (Event.refreshFail tag)).rejectedList
      = s.rejectedList
          ++ s.failedQueue.map (fun w => (w, JsError.refreshExchErr tag))
          ++ [(orig, JsError.respErr orig st)] ∧
    (orig, JsError.respErr orig st)
      ∈ (step s (Event.refreshFail tag)).rejectedList ∧
    (∀ w ∈ s.failedQueue,
      (w, JsError.refreshExchErr tag)
        ∈ (step s (Event.refreshFail tag)).rejectedList) ∧
    JsError.refreshExchErr tag ≠ JsError.respErr orig st := by
  refine ⟨by simp [step, h], ?_, ?_, by simp⟩
  · simp only [step, h, List.mem_append]
    exact Or.inr (List.mem_singleton.mpr rfl)
  · intro w hw
    simp only [step, h, List.mem_append]
    exact Or.inl (Or.inr (List.mem_map_of_mem _ hw))

/-- Witness for C9: in the concrete three-request scenario, the failing
exchange rejects the two waiters with the exchange error and the initiator
with its own original 401 error. -/
theorem refreshFailureErrorValuesWitness :
    s3.pendingRefresh = some ({ req1 with retryFlag := true }, some 401) ∧
    ((step s3 (Event.refreshFail 9)).rejectedList
       = s3.rejectedList
           ++ s3.failedQueue.map (fun w => (w, JsError.refreshExchErr 9))
           ++ [({ req1 with retryFlag := true },
                JsError.respErr { req1 with retryFlag := true }
                  (some 401))] ∧
     ({ req1 with retryFlag := true },
      JsError.respErr { req1 with retryFlag := true } (some 401))
       ∈ (step s3 (Event.refreshFail 9)).rejectedList ∧
     (∀ w ∈ s3.failedQueue,
       (w, JsError.refreshExchErr 9)
         ∈ (step s3 (Event.refreshFail 9)).rejectedList) ∧
     JsError.refreshExchErr 9
       ≠ JsError.respErr { req1 with retryFlag := true } (some 401)) :=
  ⟨by decide, refreshFailureErrorValues s3 { req1 with retryFlag := true }
    (some 401) 9 (by decide)⟩

end Projecto

namespace Projecto

/-- Claim C6: the request interceptor reads the access credential from
storage before every outbound request; if present it sets the header
"Bearer <token>", and if absent the config is returned unchanged — the
interceptor is a total function, so no error is raised and the request
proceeds without an authorization header. -/
theorem requestUseBearer (st : Storage) (config : RequestConfig) :
    (∀ token : String, st.access_token = some token →
      requestUse st config
        = { config with authHeader := some ("Bearer " ++ token) }) ∧
    (st.access_token = none → requestUse st config = config) := by
  constructor
  · intro token htok
    simp [requestUse, htok]
  · intro hnone
    simp [requestUse, hnone]

/-- Witness for C6: with the credential "A1" stored the header becomes
"Bearer A1"; with empty storage the config passes through unchanged. -/
theorem requestUseBearerWitness :
    st0.access_token = some "A1" ∧
    requestUse st0 req1
      = { req1 with authHeader := some ("Bearer " ++ "A1") } ∧
    stEmpty.access_token = none ∧
    requestUse stEmpty req1 = req1 :=
  ⟨rfl, (requestUseBearer st0 req1).1 "A1" rfl, rfl,
    (requestUseBearer stEmpty req1).2 rfl⟩

/-- Counterexample to claim C7 as stated: the authenticated gateway instance
(axiosInstance.js) is created WITHOUT a `timeout` key, so under axios
semantics its effective timeout is 0, meaning no upper bound at all; the
`timeout: 5000` lives only on the separate registration instance
(src/Registration/Axios.jsx). -/
theorem gatewayNoTimeBoundCounterexample :
    (axiosInstanceCreateConfig "http://api.example").timeoutMs = none ∧
    hasTimeBound (axiosInstanceCreateConfig "http://api.example") = false ∧
    (registrationAxiosCreateConfig "http://api.example").timeoutMs
      = some 5000 :=
  ⟨rfl, rfl, rfl⟩

/-- Claim C7, amended: the fixed 5-second upper bound is configured only on
the secondary registration axios instance; the authenticated gateway
instance specifies no timeout, so its calls carry no time bound (axios
default 0 = unbounded). -/
theorem timeoutOnRegistrationClientOnly (apiBase : String) :
    (registrationAxiosCreateConfig apiBase).timeoutMs = some 5000 ∧
    effectiveTimeoutMs (registrationAxiosCreateConfig apiBase) = 5000 ∧
    (axiosInstanceCreateConfig apiBase).timeoutMs = none ∧
    hasTimeBound (axiosInstanceCreateConfig apiBase) = false :=
  ⟨rfl, rfl, rfl, rfl⟩

/-- The response interceptor's error-arrival step never writes durable
storage: in all four branches of the `fail` case the storage is passed
through. -/
theorem stepFail_storage (g : GatewayState) (req : RequestConfig)
    (status : Option Nat) :
    (step g (Event.fail req status)).storage = g.storage := by
  simp only [step]
  split
  · rfl
  · split
    · split
      · rfl
      · rfl
    · rfl

/-- Claim C8: after every completed operation that writes credential
storage — sign-in success, a gateway step (covering refresh success and
refresh failure; 401 arrivals do not write storage), and logout — the store
holds both credentials or neither.  The gateway part is an invariant: any
step from a paired store yields a paired store. -/
theorem credentialPairAtomicity :
    (∀ (s : Storage) (a r : String),
      pairedCredentials (authenticateDataStore a r s)) ∧
    (∀ s : Storage, pairedCredentials (handleLogOutStore s)) ∧
    (∀ (g : GatewayState) (e : Event), pairedCredentials g.storage →
      pairedCredentials (step g e).storage) := by
  refine ⟨fun s a r => rfl, fun s => rfl, ?_⟩
  intro g e h
  cases e with
  | fail req status =>
    rw [pairedCredentials, stepFail_storage]
    exact h
  | refreshOk a r =>
    cases hp : g.pendingRefresh with
    | none => simpa [step, hp] using h
    | some p => simp [step, hp, pairedCredentials]
  | refreshFail tag =>
    cases hp : g.pendingRefresh with
    | none => simpa [step, hp] using h
    | some p =>
      obtain ⟨orig, st⟩ := p
      simp [step, hp, pairedCredentials]

/-- Witness for C8: the invariant evaluated across concrete operations —
sign-in from empty storage, logout from full storage, and a refresh failure
step from the paired three-request state. -/
theorem credentialPairAtomicityWitness :
    pairedCredentials (authenticateDataStore "A1" "R1" stEmpty) ∧
    pairedCredentials (handleLogOutStore st0) ∧
    (pairedCredentials s3.storage ∧
     pairedCredentials (step s3 (Event.refreshFail 3)).storage) :=
  ⟨credentialPairAtomicity.1 stEmpty "A1" "R1",
   credentialPairAtomicity.2.1 st0,
   rfl, credentialPairAtomicity.2.2 s3 (Event.refreshFail 3) rfl⟩

/-- Claim C10: the failure branch of the bootstrap session-verification call
in home.jsx only sets `islogged` to "false" and navigates to "/"; the
`access_token` and `refresh_token` entries are left unchanged in durable
storage. -/
theorem homeAuthCheckFrame (st : Storage) :
    (homeAuthCheckFailure st).1.access_token = st.access_token ∧
    (homeAuthCheckFailure st).1.refresh_token = st.refresh_token ∧
    (homeAuthCheckFailure st).1.islogged = some "false" ∧
    (homeAuthCheckFailure st).2 = "/" :=
  ⟨rfl, rfl, rfl, rfl⟩

end Projecto
